import Mathlib

/-!
# OmniParser front end: session transport and conversation state

A shallow embedding of `omnitool/frontend/src/api/websocket.js` (the
`WebSocketClient` class) and of the message / intent handlers of
`omnitool/frontend/src/App.jsx`, with the properties of the session
specification stated and proved over them.

Conventions of the embedding

* A JavaScript object reference is a number: `this.ws` holds the index of a
  socket in the list of all `WebSocket` objects created so far, and
  `this.messageHandlers` holds references of handler closures.
* The single-threaded event loop is explicit: every callback the browser may
  run (`onopen`, `onerror`, `onclose`, a `setTimeout` callback) is a function
  on the runtime state, and `step` says when the browser may run it.
* `console.log` / `console.error` calls have no effect on the state that the
  properties speak about and are left out; the promise returned by
  `connect()` is not represented.
-/

namespace OmniParser

/-! ## Runtime state -/

/-- The four values of `WebSocket.readyState`. -/
inductive ReadyState
  | CONNECTING
  | OPEN
  | CLOSING
  | CLOSED
  deriving DecidableEq, Repr

/-- An object with string-valued properties, in the order of their creation. -/
abbrev JsObject := List (String × String)

/-- Assignment `obj[key] = value`: an existing property keeps its position and
takes the new value, a new property is added at the end. -/
def JsObject.set : JsObject → String → String → JsObject
  | [], k, v => [(k, v)]
  | (k', v') :: rest, k, v =>
    if k' = k then (k, v) :: rest else (k', v') :: JsObject.set rest k v

/-- The object literal `{ type, ...data }`: property `type` first, then the
properties of `data` copied over it in order. -/
def JsObject.withType (type : String) (data : JsObject) : JsObject :=
  data.foldl (fun acc kv => JsObject.set acc kv.1 kv.2) [("type", type)]

/-- The number a property name stands for when the name is an array index,
the canonical decimal text of an integer below `2^32 - 1`. -/
def arrayIndex? (k : String) : Option Nat :=
  match k.data with
  | [] => none
  | c :: cs =>
    if (c :: cs).all Char.isDigit ∧ (c ≠ '0' ∨ cs = []) then
      let n := (c :: cs).foldl (fun n d => 10 * n + (d.toNat - 48)) 0
      if n < 2 ^ 32 - 1 then some n else none
    else none

/-- Insertion of an indexed property into a list sorted by index. -/
def insertIndexed (p : Nat × (String × String)) :
    List (Nat × (String × String)) → List (Nat × (String × String))
  | [] => [p]
  | q :: rest => if p.1 ≤ q.1 then p :: q :: rest else q :: insertIndexed p rest

/-- The properties of an object in the order in which JavaScript enumerates
them: array indices first, in ascending order, then the other names in the
order of their creation. -/
def JsObject.enumerate (o : JsObject) : JsObject :=
  ((o.filterMap (fun kv => (arrayIndex? kv.1).map (fun n => (n, kv)))).foldr
      insertIndexed []).map Prod.snd ++
    o.filter (fun kv => (arrayIndex? kv.1).isNone)

/-- The lowercase hexadecimal digit of a number below sixteen. -/
def hexDigit (n : Nat) : Char :=
  Char.ofNat (if n < 10 then 48 + n else 87 + n)

/-- The text `JSON.stringify` writes for one character of a string: the short
escapes for backspace (8), tab (9), line feed (10), form feed (12), carriage
return (13), the double quote (34) and the backslash (92), a `u` escape with
four hexadecimal digits for the other characters below 32, and the character
itself otherwise. -/
def JSON_quoteChar (c : Char) : List Char :=
  if c.toNat = 8 then [Char.ofNat 92, 'b']
  else if c.toNat = 9 then [Char.ofNat 92, 't']
  else if c.toNat = 10 then [Char.ofNat 92, 'n']
  else if c.toNat = 12 then [Char.ofNat 92, 'f']
  else if c.toNat = 13 then [Char.ofNat 92, 'r']
  else if c.toNat = 34 then [Char.ofNat 92, Char.ofNat 34]
  else if c.toNat = 92 then [Char.ofNat 92, Char.ofNat 92]
  else if c.toNat < 32 then
    [Char.ofNat 92, 'u', '0', '0', hexDigit (c.toNat / 16), hexDigit (c.toNat % 16)]
  else [c]

/-- The text `JSON.stringify` writes for a string: the escaped characters
between double quotes. A string here is a sequence of Unicode characters, so
the escape of an unpaired surrogate does not arise. -/
def JSON_quote (s : String) : String :=
  String.mk (Char.ofNat 34 :: (s.data.map JSON_quoteChar).flatten ++ [Char.ofNat 34])

/-- The text `JSON.stringify` writes for an object with string-valued
properties: the members `name:value` in enumeration order, separated by
commas, between braces. -/
def JSON_stringify (o : JsObject) : String :=
  "\x7b" ++ ",".intercalate (o.enumerate.map (fun kv => JSON_quote kv.1 ++ ":" ++ JSON_quote kv.2))
    ++ "\x7d"

/-- A `WebSocket` object: its `readyState` and the objects whose
`JSON.stringify` text was handed to its `send`, oldest first. -/
structure Socket where
  readyState : ReadyState
  sent : List JsObject
  deriving DecidableEq, Repr

/-- The fields of a `WebSocketClient` instance (`this`). -/
structure WebSocketClient where
  ws : Option Nat
  messageHandlers : List Nat
  reconnectAttempts : Nat
  maxReconnectAttempts : Nat
  reconnectDelay : Nat
  isIntentionallyClosed : Bool
  deriving DecidableEq, Repr

/-- The client together with the part of the browser it acts on: every
`WebSocket` object created so far (index = reference) and the delays of the
pending `setTimeout(() => this.connect(), delay)` callbacks, oldest first. -/
structure Runtime where
  client : WebSocketClient
  sockets : List Socket
  timers : List Nat
  deriving DecidableEq, Repr

/-- The `readyState` of the socket with reference `id`, if there is one. -/
def Runtime.readyStateOf (w : Runtime) (id : Nat) : Option ReadyState :=
  w.sockets[id]?.map Socket.readyState

/-- The browser changes the `readyState` of socket `id`. -/
def Runtime.setReadyState (w : Runtime) (id : Nat) (r : ReadyState) : Runtime :=
  { w with sockets := w.sockets.modify (fun s => { s with readyState := r }) id }

/-- The test `this.ws && this.ws.readyState === WebSocket.OPEN`. -/
def Runtime.wsIsOpen (w : Runtime) : Bool :=
  match w.client.ws with
  | none => false
  | some id => w.readyStateOf id == some ReadyState.OPEN

/-! ## `WebSocketClient` -/

namespace WebSocketClient

/-- The state after `new WebSocketClient()` (websocket.js, lines 8-15). -/
def constructor : Runtime :=
  { client :=
      { ws := none
        messageHandlers := []
        reconnectAttempts := 0
        maxReconnectAttempts := 5
        reconnectDelay := 2000
        isIntentionallyClosed := false }
    sockets := []
    timers := [] }

/-- Method `connect()` (lines 17-58): return at once when the socket is open,
otherwise create a socket, store it in `this.ws` and clear the
intentional-close flag. The four callbacks installed on the new socket are
`onopen`, `onmessage`, `onerror` and `onclose` below. -/
def connect (w : Runtime) : Runtime :=
  if w.wsIsOpen then w
  else
    { w with
      client := { w.client with ws := some w.sockets.length, isIntentionallyClosed := false }
      sockets := w.sockets ++ [{ readyState := ReadyState.CONNECTING, sent := [] }] }

/-- Callback `ws.onopen` (lines 27-31). -/
def onopen (w : Runtime) : Runtime :=
  { w with client := { w.client with reconnectAttempts := 0 } }

/-- Callback `ws.onerror` (lines 42-45): logs and rejects the promise. -/
def onerror (w : Runtime) : Runtime := w

/-- Callback `ws.onclose` (lines 47-56). -/
def onclose (w : Runtime) : Runtime :=
  if !w.client.isIntentionallyClosed ∧
      w.client.reconnectAttempts < w.client.maxReconnectAttempts then
    { w with
      client := { w.client with reconnectAttempts := w.client.reconnectAttempts + 1 }
      timers := w.timers ++ [w.client.reconnectDelay] }
  else w

/-- The first statement of `disconnect()` (line 61). -/
def disconnectSetFlag (w : Runtime) : Runtime :=
  { w with client := { w.client with isIntentionallyClosed := true } }

/-- The browser's `WebSocket.close()`: a socket that is connecting or open
starts closing, a socket that is closing or closed is left alone. The close
event is delivered later, from the event loop. -/
def socketClose (w : Runtime) (id : Nat) : Runtime :=
  match w.readyStateOf id with
  | some ReadyState.CONNECTING => w.setReadyState id ReadyState.CLOSING
  | some ReadyState.OPEN => w.setReadyState id ReadyState.CLOSING
  | _ => w

/-- The rest of `disconnect()` (lines 62-65). -/
def disconnectCloseSocket (w : Runtime) : Runtime :=
  match w.client.ws with
  | some id =>
    let w1 := socketClose w id
    { w1 with client := { w1.client with ws := none } }
  | none => w

/-- Method `disconnect()` (lines 60-66). -/
def disconnect (w : Runtime) : Runtime :=
  disconnectCloseSocket (disconnectSetFlag w)

/-- Method `send(type, data)` (lines 68-75): normal completion or the message
of the `Error` thrown, and the state the call leaves behind. A call without
`data` passes the empty object. -/
def send (w : Runtime) (type : String) (data : JsObject) : Except String Unit × Runtime :=
  match w.client.ws with
  | some id =>
    if w.readyStateOf id = some ReadyState.OPEN then
      (.ok (),
        { w with
          sockets := w.sockets.modify
            (fun s => { s with sent := s.sent ++ [JsObject.withType type data] }) id })
    else (.error "WebSocket not connected", w)
  | none => (.error "WebSocket not connected", w)

/-- Method `sendMessage(content)` (lines 77-79). -/
def sendMessage (w : Runtime) (content : String) : Except String Unit × Runtime :=
  send w "user_message" [("content", content)]

/-- Method `stopAgent()` (lines 81-83). -/
def stopAgent (w : Runtime) : Except String Unit × Runtime :=
  send w "stop_agent" []

/-- Method `clearHistory()` (lines 85-87). -/
def clearHistory (w : Runtime) : Except String Unit × Runtime :=
  send w "clear_history" []

/-- Method `isConnected()` (lines 106-108). -/
def isConnected (w : Runtime) : Bool := w.wsIsOpen

/-- Method `onMessage(handler)` (lines 89-94), the registration: the handler
reference is pushed at the end of `this.messageHandlers`. -/
def onMessage (w : Runtime) (handler : Nat) : Runtime :=
  { w with client := { w.client with messageHandlers := w.client.messageHandlers ++ [handler] } }

/-- The function returned by `onMessage(handler)` (lines 91-93). -/
def unsubscribe (w : Runtime) (handler : Nat) : Runtime :=
  { w with
    client := { w.client with
                messageHandlers := w.client.messageHandlers.filter (fun h => h != handler) } }

end WebSocketClient

/-! ## The event loop -/

/-- What can happen to a client: a call of `connect()` or `disconnect()` by
its owner, an open / error / close event of one of the sockets, or the firing
of the oldest pending reconnection timer. -/
inductive Event
  | connect
  | disconnect
  | socketOpen (id : Nat)
  | socketError (id : Nat)
  | socketClose (id : Nat)
  | timerFires
  deriving DecidableEq, Repr

/-- One turn of the event loop; `none` when the browser cannot deliver the
event in this state: an open event needs a connecting socket, an error event
an existing socket, a close event a socket that is not closed yet, a timer
firing a pending timer. The browser updates `readyState` before it runs the
callback. -/
def step (w : Runtime) : Event → Option Runtime
  | .connect => some (WebSocketClient.connect w)
  | .disconnect => some (WebSocketClient.disconnect w)
  | .socketOpen id =>
    if w.readyStateOf id = some ReadyState.CONNECTING then
      some (WebSocketClient.onopen (w.setReadyState id ReadyState.OPEN))
    else none
  | .socketError id =>
    if (w.readyStateOf id).isSome then some (WebSocketClient.onerror w) else none
  | .socketClose id =>
    match w.readyStateOf id with
    | none => none
    | some ReadyState.CLOSED => none
    | some _ => some (WebSocketClient.onclose (w.setReadyState id ReadyState.CLOSED))
  | .timerFires =>
    match w.timers with
    | [] => none
    | _ :: rest => some (WebSocketClient.connect { w with timers := rest })

/-- A finite sequence of turns of the event loop. -/
def run (w : Runtime) : List Event → Option Runtime
  | [] => some w
  | e :: es => (step w e).bind (fun w' => run w' es)

/-! ## Message fan-out -/

/-- What a handler closure does when called with a message: from the state
`σ` of the observers it gives the state it leaves behind and, when it throws,
the error thrown. Handlers act on the observers (for `App`, its React state)
and do not call back into the client. -/
abbrev Handler (μ σ : Type) := μ → σ → σ × Option String

/-- The state a fan-out runs in: the client, the state of the observers, the
record of handler calls made so far (handler reference and argument, oldest
first) and the errors passed to `console.error` by the `catch` block. -/
structure FanOut (μ σ : Type) where
  runtime : Runtime
  observers : σ
  calls : List (Nat × μ)
  logged : List String

/-- The call `handler(message)` (line 99): the call is recorded, the handler
runs, and the result is normal completion or the error thrown. -/
def callHandler {μ σ : Type} (closures : Nat → Handler μ σ) (handler : Nat) (message : μ)
    (st : FanOut μ σ) : Except String Unit × FanOut μ σ :=
  let r := closures handler message st.observers
  let st' := { st with observers := r.1, calls := st.calls ++ [(handler, message)] }
  match r.2 with
  | none => (.ok (), st')
  | some err => (.error err, st')

/-- The body of the `forEach` callback (lines 98-102):
`try { handler(message) } catch (error) { console.error(..., error) }`. -/
def tryHandler {μ σ : Type} (closures : Nat → Handler μ σ) (handler : Nat) (message : μ)
    (st : FanOut μ σ) : Except String Unit × FanOut μ σ :=
  match callHandler closures handler message st with
  | (.ok (), st') => (.ok (), st')
  | (.error err, st') => (.ok (), { st' with logged := st'.logged ++ [err] })

/-- The loop `Array.prototype.forEach` over the elements the array holds when
the loop starts: an error that escapes a callback ends the loop and escapes
the loop too. -/
def forEach {μ σ : Type} (callback : Nat → FanOut μ σ → Except String Unit × FanOut μ σ) :
    List Nat → FanOut μ σ → Except String Unit × FanOut μ σ
  | [], st => (.ok (), st)
  | h :: rest, st =>
    match callback h st with
    | (.ok (), st') => forEach callback rest st'
    | (.error err, st') => (.error err, st')

/-- Method `handleMessage(message)` (websocket.js, lines 96-104). -/
def WebSocketClient.handleMessage {μ σ : Type} (closures : Nat → Handler μ σ) (message : μ)
    (st : FanOut μ σ) : Except String Unit × FanOut μ σ :=
  forEach (fun handler => tryHandler closures handler message)
    st.runtime.client.messageHandlers st

/-! ## `App.jsx`: conversation log and agent activity -/

/-- The object `message.data` of a decoded inbound frame. Frames are taken in
the shape the wire protocol gives them, a string `type` beside an object
`data`; a property that `data` does not carry reads as `undefined`, here
`none`. -/
structure MessageData where
  content : Option String
  sender : Option String
  timestamp : Option String
  status : Option String
  message : Option String
  deriving DecidableEq, Repr

/-- A decoded inbound frame `{ type, data }`. -/
structure Message where
  type : String
  data : MessageData
  deriving DecidableEq, Repr

/-- An element of the `messages` state (the conversation log). -/
structure Entry where
  content : Option String
  sender : Option String
  timestamp : Option String
  deriving DecidableEq, Repr

/-- The values the `agentStatus` state takes: the strings `idle`, `running`
and `error`. -/
inductive AgentStatus
  | idle
  | running
  | error
  deriving DecidableEq, Repr

/-- The state of the `App` component that the handlers read and write,
together with the `wsClient` singleton they call. -/
structure App where
  messages : List Entry
  agentStatus : AgentStatus
  wsClient : Runtime
  deriving DecidableEq, Repr

/-- The state of `App` at its first render, around a given client:
`useState([])` and `useState('idle')` (App.jsx, lines 10-13). -/
def App.initial (wsClient : Runtime) : App :=
  { messages := [], agentStatus := AgentStatus.idle, wsClient := wsClient }

/-- A value placed in a template literal: `undefined` prints as the word. -/
def templateText : Option String → String
  | some s => s
  | none => "undefined"

/-- Function `handleWebSocketMessage(message)` (App.jsx, lines 53-93); the
chain of tests is the `switch (message.type)`. -/
def handleWebSocketMessage (s : App) (message : Message) : App :=
  if message.type = "agent_message" then
    { s with messages := s.messages ++
        [{ content := message.data.content
           sender := message.data.sender
           timestamp := message.data.timestamp }] }
  else if message.type = "tool_result" then
    { s with messages := s.messages ++
        [{ content := message.data.content
           sender := some "tool"
           timestamp := message.data.timestamp }] }
  else if message.type = "status" then
    if message.data.status = some "processing" then
      { s with agentStatus := AgentStatus.running }
    else if message.data.status = some "stopped" then
      { s with agentStatus := AgentStatus.idle }
    else s
  else if message.type = "error" then
    { s with
      messages := s.messages ++
        [{ content := some ("Error: " ++ templateText message.data.message)
           sender := some "system"
           timestamp := message.data.timestamp }]
      agentStatus := AgentStatus.error }
  else s

/-- Function `handleSendMessage(content)` (App.jsx, lines 95-114); `now` and
`later` are the results of the two `new Date().toISOString()` calls. -/
def handleSendMessage (s : App) (content now later : String) : App :=
  let userEntry : Entry :=
    { content := some content, sender := some "user", timestamp := some now }
  let failureEntry : Entry :=
    { content := some "Failed to send message. Please check connection."
      sender := some "system"
      timestamp := some later }
  let s1 := { s with messages := s.messages ++ [userEntry] }
  match WebSocketClient.sendMessage s1.wsClient content with
  | (.ok (), w) => { s1 with wsClient := w }
  | (.error _, w) => { s1 with wsClient := w, messages := s1.messages ++ [failureEntry] }

/-- Function `handleClearHistory()` (App.jsx, lines 116-123). -/
def handleClearHistory (s : App) : App :=
  match WebSocketClient.clearHistory s.wsClient with
  | (.ok (), w) => { s with wsClient := w, messages := [] }
  | (.error _, w) => { s with wsClient := w }

/-- Function `handleStopAgent()` (App.jsx, lines 125-132). -/
def handleStopAgent (s : App) : App :=
  match WebSocketClient.stopAgent s.wsClient with
  | (.ok (), w) => { s with wsClient := w, agentStatus := AgentStatus.idle }
  | (.error _, w) => { s with wsClient := w }

/-- What the `App` state reacts to: a decoded inbound frame delivered to its
message handler, or one of the three intents of the chat panel. -/
inductive AppEvent
  | frame (message : Message)
  | submit (content now later : String)
  | clear
  | stop
  deriving DecidableEq, Repr

/-- The reaction of `App` to one event. -/
def App.react (s : App) : AppEvent → App
  | .frame message => handleWebSocketMessage s message
  | .submit content now later => handleSendMessage s content now later
  | .clear => handleClearHistory s
  | .stop => handleStopAgent s

/-- The reaction of `App` to a sequence of events, in order. -/
def App.reactAll (s : App) (events : List AppEvent) : App :=
  events.foldl App.react s

/-! ## Vocabulary of the statements -/

/-- The event is the close event of some socket. -/
def Event.isClose : Event → Bool
  | .socketClose _ => true
  | _ => false

/-- The event is neither a successful open nor a call of `disconnect()`. -/
def Event.keepsFailing : Event → Bool
  | .socketOpen _ => false
  | .disconnect => false
  | _ => true

/-- Five failed connections in a row: the first `connect()`, then five times
the close of the current socket followed by the firing of the retry timer. -/
def fiveFailures : List Event :=
  [Event.connect, Event.socketClose 0, Event.timerFires, Event.socketClose 1,
   Event.timerFires, Event.socketClose 2, Event.timerFires, Event.socketClose 3,
   Event.timerFires, Event.socketClose 4, Event.timerFires]

/-- The state `fiveFailures` leads to: five closed sockets, the sixth one
connecting, the counter at five and no timer pending. -/
def afterFiveFailures : Runtime :=
  { client :=
      { ws := some 5
        messageHandlers := []
        reconnectAttempts := 5
        maxReconnectAttempts := 5
        reconnectDelay := 2000
        isIntentionallyClosed := false }
    sockets :=
      List.replicate 5 { readyState := ReadyState.CLOSED, sent := [] } ++
        [{ readyState := ReadyState.CONNECTING, sent := [] }]
    timers := [] }

/-- The number of frames written so far, over all sockets. -/
def Runtime.framesWritten (w : Runtime) : Nat :=
  (w.sockets.map (fun s => s.sent.length)).sum

/-- The frames written so far on socket `id`. -/
def Runtime.sentOn (w : Runtime) (id : Nat) : List JsObject :=
  (w.sockets[id]?.map Socket.sent).getD []

/-- The texts handed to `send` of socket `id` so far, oldest first. -/
def Runtime.textOn (w : Runtime) (id : Nat) : List String :=
  (w.sentOn id).map JSON_stringify

/-- A client whose first connection attempt failed: the socket is closed, one
retry has been counted and its timer is pending. -/
def retryPending : Runtime :=
  { client :=
      { ws := some 0
        messageHandlers := []
        reconnectAttempts := 1
        maxReconnectAttempts := 5
        reconnectDelay := 2000
        isIntentionallyClosed := false }
    sockets := [{ readyState := ReadyState.CLOSED, sent := [] }]
    timers := [2000] }

/-- A client whose first connection attempt succeeded. -/
def connected : Runtime :=
  { client :=
      { ws := some 0
        messageHandlers := []
        reconnectAttempts := 0
        maxReconnectAttempts := 5
        reconnectDelay := 2000
        isIntentionallyClosed := false }
    sockets := [{ readyState := ReadyState.OPEN, sent := [] }]
    timers := [] }

/-- The log entry the specification assigns to an event: an `agent_message`
frame gives its content, sender and timestamp as they are, a `tool_result`
frame gives its content and timestamp with sender `tool`, an `error` frame
gives the text `Error: ` followed by its message with sender `system`, a user
submission gives the content with sender `user`; nothing else gives an entry. -/
def expectedEntry : AppEvent → Option Entry
  | .frame m =>
    if m.type = "agent_message" then
      some { content := m.data.content, sender := m.data.sender, timestamp := m.data.timestamp }
    else if m.type = "tool_result" then
      some { content := m.data.content, sender := some "tool", timestamp := m.data.timestamp }
    else if m.type = "error" then
      some { content := some ("Error: " ++ templateText m.data.message)
             sender := some "system"
             timestamp := m.data.timestamp }
    else none
  | .submit content now _ =>
    some { content := some content, sender := some "user", timestamp := some now }
  | .clear => none
  | .stop => none

/-- The event is an `agent_message`, `tool_result` or `error` frame. -/
def AppEvent.isEntryFrame : AppEvent → Bool
  | .frame m => m.type = "agent_message" ∨ m.type = "tool_result" ∨ m.type = "error"
  | _ => false

/-- The event is a user submission. -/
def AppEvent.isSubmit : AppEvent → Bool
  | .submit _ _ _ => true
  | _ => false

/-- A short session: a submission, a status frame, an agent message, a tool
result whose frame names another sender, an error, and a frame of a type the
client does not know. -/
def sampleSession : List AppEvent :=
  [AppEvent.submit "open chrome" "t0" "t1",
   AppEvent.frame
     { type := "status"
       data := { content := none, sender := none, timestamp := none,
                 status := some "processing", message := none } },
   AppEvent.frame
     { type := "agent_message"
       data := { content := some "opening...", sender := some "agent", timestamp := some "t2",
                 status := none, message := none } },
   AppEvent.frame
     { type := "tool_result"
       data := { content := some "done", sender := some "agent", timestamp := some "t3",
                 status := none, message := none } },
   AppEvent.frame
     { type := "error"
       data := { content := none, sender := none, timestamp := some "t4",
                 status := none, message := some "boom" } },
   AppEvent.frame
     { type := "bogus"
       data := { content := none, sender := none, timestamp := none,
                 status := none, message := none } }]

/-- The activity an event sets, if it sets one: `running` for a status frame
with status `processing`, `idle` for a status frame with status `stopped` and
for a stop request made while the transport is open, `error` for an error
frame; every other event sets none. -/
def activityEffect (transportOpen : Bool) : AppEvent → Option AgentStatus
  | .frame m =>
    if m.type = "status" then
      if m.data.status = some "processing" then some AgentStatus.running
      else if m.data.status = some "stopped" then some AgentStatus.idle
      else none
    else if m.type = "error" then some AgentStatus.error
    else none
  | .stop => if transportOpen then some AgentStatus.idle else none
  | .submit _ _ _ => none
  | .clear => none

/-- The activity set by the most recent activity-affecting event of a
sequence that `App` reacts to from state `s`, if the sequence has one. -/
def App.lastEffect (s : App) : List AppEvent → Option AgentStatus
  | [] => none
  | e :: es =>
    match App.lastEffect (s.react e) es with
    | some a => some a
    | none => activityEffect s.wsClient.wsIsOpen e

/-- The errors thrown, in order, when the handlers `hs` are run one after the
other on `message`, starting from the observer state `o`. -/
def thrownErrors {μ σ : Type} (closures : Nat → Handler μ σ) (message : μ) :
    List Nat → σ → List String
  | [], _ => []
  | h :: hs, o =>
    (closures h message o).2.toList ++ thrownErrors closures message hs (closures h message o).1

/-- Three handlers over a counter: handler 1 adds 1, handler 2 adds 10 and
then throws, every other handler adds 100. -/
def sampleClosures : Nat → Handler String Nat
  | 1 => fun _ n => (n + 1, none)
  | 2 => fun _ n => (n + 10, some "boom")
  | _ => fun _ n => (n + 100, none)

/-- A fan-out state around the connected client with handlers 1, 2 and 3
registered in that order. -/
def sampleFanOut : FanOut String Nat :=
  { runtime := [1, 2, 3].foldl WebSocketClient.onMessage connected
    observers := 0
    calls := []
    logged := [] }

/-! ## Reconnection policy -/

section Transport

open WebSocketClient

@[simp] theorem setReadyState_client (w : Runtime) (id : Nat) (r : ReadyState) :
    (w.setReadyState id r).client = w.client := rfl

@[simp] theorem setReadyState_timers (w : Runtime) (id : Nat) (r : ReadyState) :
    (w.setReadyState id r).timers = w.timers := rfl

theorem connect_reconnectAttempts (w : Runtime) :
    (connect w).client.reconnectAttempts = w.client.reconnectAttempts ∧
      (connect w).client.maxReconnectAttempts = w.client.maxReconnectAttempts := by
  unfold connect
  split <;> simp

theorem socketClose_client (w : Runtime) (id : Nat) :
    (socketClose w id).client = w.client ∧ (socketClose w id).timers = w.timers := by
  unfold socketClose
  split <;> simp

theorem disconnect_reconnectAttempts (w : Runtime) :
    (disconnect w).client.reconnectAttempts = w.client.reconnectAttempts ∧
      (disconnect w).client.maxReconnectAttempts = w.client.maxReconnectAttempts := by
  unfold disconnect disconnectCloseSocket disconnectSetFlag
  split <;> simp [socketClose_client]

theorem onclose_maxReconnectAttempts (w : Runtime) :
    (onclose w).client.maxReconnectAttempts = w.client.maxReconnectAttempts := by
  unfold onclose
  split <;> simp

theorem onclose_bounded (w : Runtime)
    (h : w.client.reconnectAttempts ≤ w.client.maxReconnectAttempts) :
    (onclose w).client.reconnectAttempts ≤ (onclose w).client.maxReconnectAttempts := by
  unfold onclose
  split
  · rename_i hc
    simp only
    omega
  · exact h

/-- A close handled when the counter has reached the maximum changes nothing. -/
theorem onclose_exhausted (w : Runtime)
    (h : w.client.reconnectAttempts = w.client.maxReconnectAttempts) : onclose w = w := by
  unfold onclose
  rw [if_neg]
  intro hc
  omega

/-- A close handled after `disconnect()` set the flag changes nothing. -/
theorem onclose_intentional (w : Runtime) (h : w.client.isIntentionallyClosed = true) :
    onclose w = w := by
  unfold onclose
  rw [if_neg]
  simp [h]

theorem step_bounded (w w' : Runtime) (e : Event) (hs : step w e = some w')
    (h : w.client.reconnectAttempts ≤ w.client.maxReconnectAttempts) :
    w'.client.reconnectAttempts ≤ w'.client.maxReconnectAttempts := by
  cases e with
  | connect =>
    simp only [step, Option.some.injEq] at hs
    subst hs
    have := connect_reconnectAttempts w
    omega
  | disconnect =>
    simp only [step, Option.some.injEq] at hs
    subst hs
    have := disconnect_reconnectAttempts w
    omega
  | socketOpen id =>
    simp only [step] at hs
    split at hs
    · simp only [Option.some.injEq] at hs
      subst hs
      simp [onopen]
    · cases hs
  | socketError id =>
    simp only [step] at hs
    split at hs
    · simp only [Option.some.injEq, onerror] at hs
      subst hs
      exact h
    · cases hs
  | socketClose id =>
    simp only [step] at hs
    split at hs
    · cases hs
    · cases hs
    · simp only [Option.some.injEq] at hs
      subst hs
      exact onclose_bounded _ h
  | timerFires =>
    simp only [step] at hs
    split at hs
    · cases hs
    · simp only [Option.some.injEq] at hs
      subst hs
      have := connect_reconnectAttempts { w with timers := ‹List Nat› }
      simp only at this
      omega

theorem run_bounded (es : List Event) (w w' : Runtime) (hr : run w es = some w')
    (h : w.client.reconnectAttempts ≤ w.client.maxReconnectAttempts) :
    w'.client.reconnectAttempts ≤ w'.client.maxReconnectAttempts := by
  induction es generalizing w with
  | nil =>
    simp only [run, Option.some.injEq] at hr
    subst hr
    exact h
  | cons e es ih =>
    simp only [run] at hr
    cases hs : step w e with
    | none => simp [hs] at hr
    | some w1 =>
      simp only [hs, Option.some_bind] at hr
      exact ih w1 hr (step_bounded w w1 e hs h)

theorem connect_flag_false (w : Runtime) (hf : w.client.isIntentionallyClosed = false) :
    (connect w).client.isIntentionallyClosed = false := by
  unfold connect
  split <;> simp [hf]

theorem step_keepsFailing (w w' : Runtime) (e : Event) (hs : step w e = some w')
    (hk : e.keepsFailing = true) (hf : w.client.isIntentionallyClosed = false)
    (h : w.client.reconnectAttempts ≤ w.client.maxReconnectAttempts) :
    w'.client.isIntentionallyClosed = false ∧
      w'.client.maxReconnectAttempts = w.client.maxReconnectAttempts ∧
      w'.client.reconnectAttempts =
        min (w.client.reconnectAttempts + (if e.isClose then 1 else 0))
          w.client.maxReconnectAttempts := by
  cases e with
  | connect =>
    simp only [step, Option.some.injEq] at hs
    subst hs
    have := connect_reconnectAttempts w
    have := connect_flag_false w hf
    simp [Event.isClose, *]
  | disconnect => simp [Event.keepsFailing] at hk
  | socketOpen id => simp [Event.keepsFailing] at hk
  | socketError id =>
    simp only [step] at hs
    split at hs
    · simp only [Option.some.injEq, onerror] at hs
      subst hs
      simp [Event.isClose, *]
    · cases hs
  | socketClose id =>
    simp only [step] at hs
    split at hs
    · cases hs
    · cases hs
    · simp only [Option.some.injEq] at hs
      subst hs
      unfold onclose
      simp only [setReadyState_client, Event.isClose, if_true]
      split
      · rename_i hc
        simp only [hf] at hc
        refine ⟨hf, rfl, ?_⟩
        show w.client.reconnectAttempts + 1 = _
        omega
      · rename_i hc
        simp only [hf] at hc
        refine ⟨hf, rfl, ?_⟩
        show w.client.reconnectAttempts = _
        simp at hc
        omega
  | timerFires =>
    simp only [step] at hs
    split at hs
    · cases hs
    · simp only [Option.some.injEq] at hs
      subst hs
      have h1 := connect_reconnectAttempts { w with timers := ‹List Nat› }
      have h2 := connect_flag_false { w with timers := ‹List Nat› } hf
      simp only at h1
      simp [Event.isClose, *]

theorem run_keepsFailing (es : List Event) (w w' : Runtime) (hr : run w es = some w')
    (hk : ∀ e ∈ es, e.keepsFailing = true) (hf : w.client.isIntentionallyClosed = false)
    (h : w.client.reconnectAttempts ≤ w.client.maxReconnectAttempts) :
    w'.client.maxReconnectAttempts = w.client.maxReconnectAttempts ∧
      w'.client.reconnectAttempts =
        min (w.client.reconnectAttempts + es.countP Event.isClose)
          w.client.maxReconnectAttempts := by
  induction es generalizing w with
  | nil =>
    simp only [run, Option.some.injEq] at hr
    subst hr
    simp [h]
  | cons e es ih =>
    simp only [run] at hr
    cases hs : step w e with
    | none => simp [hs] at hr
    | some w1 =>
      simp only [hs, Option.some_bind] at hr
      have hstep := step_keepsFailing w w1 e hs (hk e (List.mem_cons_self _ _)) hf h
      have hb := step_bounded w w1 e hs h
      have := ih w1 hr (fun e' he' => hk e' (List.mem_cons_of_mem _ he')) hstep.1 hb
      rw [this.1, this.2, hstep.2.1, hstep.2.2, List.countP_cons]
      refine ⟨rfl, ?_⟩
      split <;> omega

/-- C1. In every state reachable from the freshly constructed client by
`connect()`, `disconnect()`, socket open / error / close events and timer
firings, `reconnectAttempts <= maxReconnectAttempts`; a close event handled
while the counter equals the maximum schedules no timer and leaves the counter
as it is; and from such a state with the flag clear, any further events that
contain neither a successful open nor a `disconnect()` leave the counter at
the old value plus the number of closes, capped at (and then frozen at) the
maximum. -/
theorem C1_reconnectAttempts_bounded (es : List Event) (w : Runtime)
    (hr : run WebSocketClient.constructor es = some w) :
    w.client.reconnectAttempts ≤ w.client.maxReconnectAttempts ∧
    (∀ id w', w.client.reconnectAttempts = w.client.maxReconnectAttempts →
      step w (Event.socketClose id) = some w' →
      w'.timers = w.timers ∧ w'.client.reconnectAttempts = w.client.reconnectAttempts) ∧
    (∀ es' w', w.client.isIntentionallyClosed = false →
      (∀ e ∈ es', e.keepsFailing = true) → run w es' = some w' →
      w'.client.maxReconnectAttempts = w.client.maxReconnectAttempts ∧
      w'.client.reconnectAttempts =
        min (w.client.reconnectAttempts + es'.countP Event.isClose)
          w.client.maxReconnectAttempts) := by
  have hb : w.client.reconnectAttempts ≤ w.client.maxReconnectAttempts :=
    run_bounded es _ w hr (by decide)
  refine ⟨hb, ?_, ?_⟩
  · intro id w' hmax hs
    simp only [step] at hs
    split at hs
    · cases hs
    · cases hs
    · simp only [Option.some.injEq] at hs
      subst hs
      rw [onclose_exhausted _ (by simpa using hmax)]
      simp
  · intro es' w' hf hk hr'
    exact run_keepsFailing es' w w' hr' hk hf hb

/-- C1 at the trace of five failed connections in a row: every close has
scheduled a retry, the counter has reached five, and the close of the sixth
socket schedules nothing. -/
theorem C1_reconnectAttempts_bounded_witness :
    run WebSocketClient.constructor fiveFailures = some afterFiveFailures ∧
      afterFiveFailures.client.reconnectAttempts ≤
        afterFiveFailures.client.maxReconnectAttempts ∧
      (∀ id w', afterFiveFailures.client.reconnectAttempts =
          afterFiveFailures.client.maxReconnectAttempts →
        step afterFiveFailures (Event.socketClose id) = some w' →
        w'.timers = afterFiveFailures.timers ∧
          w'.client.reconnectAttempts = afterFiveFailures.client.reconnectAttempts) :=
  ⟨by decide,
   (C1_reconnectAttempts_bounded fiveFailures afterFiveFailures (by decide)).1,
   (C1_reconnectAttempts_bounded fiveFailures afterFiveFailures (by decide)).2.1⟩

theorem disconnect_timers (w : Runtime) : (disconnect w).timers = w.timers := by
  unfold disconnect disconnectCloseSocket disconnectSetFlag
  split <;> simp [socketClose_client]

theorem disconnect_flag (w : Runtime) : (disconnect w).client.isIntentionallyClosed = true := by
  unfold disconnect disconnectCloseSocket disconnectSetFlag
  split <;> simp [socketClose_client]

theorem readyStateOf_setReadyState (w : Runtime) (id : Nat) (r : ReadyState)
    (h : (w.readyStateOf id).isSome) : (w.setReadyState id r).readyStateOf id = some r := by
  unfold Runtime.readyStateOf Runtime.setReadyState at *
  simp only [List.getElem?_modify_eq]
  cases hs : w.sockets[id]? with
  | none => simp [hs] at h
  | some s => simp

/-- After `socket.close()` a socket that was not closed is closing. -/
theorem readyStateOf_socketClose (w : Runtime) (id : Nat) (h : (w.readyStateOf id).isSome)
    (hc : w.readyStateOf id ≠ some ReadyState.CLOSED) :
    (socketClose w id).readyStateOf id = some ReadyState.CLOSING := by
  unfold socketClose
  cases hr : w.readyStateOf id with
  | none => simp [hr] at h
  | some r =>
    cases r with
    | CONNECTING => exact readyStateOf_setReadyState w id _ h
    | OPEN => exact readyStateOf_setReadyState w id _ h
    | CLOSING => simp [hr]
    | CLOSED => exact absurd hr hc

/-- C2, evaluated on the code. `disconnect()` never removes a pending timer.
For the client whose first connection failed (one retry timer pending),
`disconnect()` sets the flag and drops the socket but keeps the timer; when
the timer fires, `connect()` opens a second socket and clears the flag. -/
theorem C2_disconnect_keeps_timer :
    (∀ w : Runtime, (WebSocketClient.disconnect w).timers = w.timers) ∧
    run WebSocketClient.constructor
      [Event.connect, Event.socketError 0, Event.socketClose 0] = some retryPending ∧
    (WebSocketClient.disconnect retryPending).timers = [2000] ∧
    (WebSocketClient.disconnect retryPending).client.ws = none ∧
    (WebSocketClient.disconnect retryPending).client.isIntentionallyClosed = true ∧
    (step (WebSocketClient.disconnect retryPending) Event.timerFires).map
      (fun w => (w.client.ws, w.client.isIntentionallyClosed, w.readyStateOf 1, w.timers)) =
      some (some 1, false, some ReadyState.CONNECTING, []) := by
  refine ⟨disconnect_timers, ?_, ?_, ?_, ?_, ?_⟩ <;> decide

/-- C3. `disconnect()` has set the intentional-close flag in the state in
which it asks the socket to close, and the flag is still set when it returns;
a close event of any socket handled next schedules no timer, leaves
`reconnectAttempts` as it was and leaves the flag set; and the close event of
the socket the client held, if that socket was not closed already, can indeed
be delivered next. -/
theorem C3_close_after_disconnect (w : Runtime) (id : Nat) :
    (WebSocketClient.disconnectSetFlag w).client.isIntentionallyClosed = true ∧
    WebSocketClient.disconnect w =
      WebSocketClient.disconnectCloseSocket (WebSocketClient.disconnectSetFlag w) ∧
    (WebSocketClient.disconnect w).client.isIntentionallyClosed = true ∧
    (∀ w', step (WebSocketClient.disconnect w) (Event.socketClose id) = some w' →
      w'.timers = w.timers ∧
      w'.client.reconnectAttempts = w.client.reconnectAttempts ∧
      w'.client.isIntentionallyClosed = true) ∧
    (w.client.ws = some id → (w.readyStateOf id).isSome →
      w.readyStateOf id ≠ some ReadyState.CLOSED →
      (step (WebSocketClient.disconnect w) (Event.socketClose id)).isSome) := by
  refine ⟨rfl, rfl, disconnect_flag w, ?_, ?_⟩
  · intro w' hs
    simp only [step] at hs
    split at hs
    · cases hs
    · cases hs
    · simp only [Option.some.injEq] at hs
      subst hs
      rw [onclose_intentional _ (by simpa using disconnect_flag w)]
      simp [disconnect_timers, disconnect_reconnectAttempts, disconnect_flag]
  · intro hws hsome hne
    have hr : (WebSocketClient.disconnect w).readyStateOf id = some ReadyState.CLOSING := by
      have := readyStateOf_socketClose (disconnectSetFlag w) id hsome hne
      unfold disconnect disconnectCloseSocket
      have hws' : (disconnectSetFlag w).client.ws = some id := hws
      simp only [hws']
      exact this
    simp [step, hr]

/-- C3 at the connected client: its socket 0 is open, and the close event of
that socket after `disconnect()` schedules nothing. -/
theorem C3_close_after_disconnect_witness :
    (step (WebSocketClient.disconnect connected) (Event.socketClose 0)).isSome ∧
    (∀ w', step (WebSocketClient.disconnect connected) (Event.socketClose 0) = some w' →
      w'.timers = connected.timers ∧
      w'.client.reconnectAttempts = connected.client.reconnectAttempts ∧
      w'.client.isIntentionallyClosed = true) :=
  ⟨(C3_close_after_disconnect connected 0).2.2.2.2 (by decide) (by decide) (by decide),
   (C3_close_after_disconnect connected 0).2.2.2.1⟩

/-- C4 as stated fails for a socket that is still connecting: after one
`connect()` the client holds socket 0 in state CONNECTING, and a second
`connect()` creates socket 1 and stores it in `ws`, with socket 0 still
connecting. -/
theorem C4_connecting_counterexample :
    (WebSocketClient.connect WebSocketClient.constructor).client.ws = some 0 ∧
    (WebSocketClient.connect WebSocketClient.constructor).readyStateOf 0 =
      some ReadyState.CONNECTING ∧
    (WebSocketClient.connect (WebSocketClient.connect WebSocketClient.constructor)).client.ws =
      some 1 ∧
    (WebSocketClient.connect (WebSocketClient.connect WebSocketClient.constructor)).sockets =
      [{ readyState := ReadyState.CONNECTING, sent := [] },
       { readyState := ReadyState.CONNECTING, sent := [] }] := by
  decide

/-- C4, amended. When the socket of the client is open, `connect()` is a
no-op: the whole state is returned as it was, so no socket is created and the
`ws` handle, `reconnectAttempts` and the intentional-close flag are unchanged. -/
theorem C4_connect_when_open (w : Runtime) (h : w.wsIsOpen = true) :
    WebSocketClient.connect w = w ∧
    (WebSocketClient.connect w).sockets.length = w.sockets.length ∧
    (WebSocketClient.connect w).client.ws = w.client.ws ∧
    (WebSocketClient.connect w).client.reconnectAttempts = w.client.reconnectAttempts ∧
    (WebSocketClient.connect w).client.isIntentionallyClosed =
      w.client.isIntentionallyClosed := by
  have hc : WebSocketClient.connect w = w := by
    unfold WebSocketClient.connect
    rw [if_pos h]
  rw [hc]
  exact ⟨rfl, rfl, rfl, rfl, rfl⟩

/-- C4, amended, at the connected client. -/
theorem C4_connect_when_open_witness :
    connected.wsIsOpen = true ∧ WebSocketClient.connect connected = connected :=
  ⟨by decide, (C4_connect_when_open connected (by decide)).1⟩

/-! ## Sending -/

theorem wsIsOpen_iff (w : Runtime) :
    w.wsIsOpen = true ↔ ∃ id, w.client.ws = some id ∧ w.readyStateOf id = some ReadyState.OPEN := by
  unfold Runtime.wsIsOpen
  cases hws : w.client.ws with
  | none => simp
  | some id => simp

theorem sum_map_modify {α : Type} (g : α → Nat) (f : α → α) (hg : ∀ a, g (f a) = g a + 1) :
    ∀ (l : List α) (n : Nat), n < l.length →
      ((l.modify f n).map g).sum = (l.map g).sum + 1
  | [], n, h => by simp at h
  | a :: l, 0, _ => by
    simp only [List.modify_zero_cons, List.map_cons, List.sum_cons, hg]
    omega
  | a :: l, n + 1, h => by
    have ih := sum_map_modify g f hg l n (by simpa using h)
    simp only [List.modify_succ_cons, List.map_cons, List.sum_cons, ih]
    omega

theorem readyStateOf_lt (w : Runtime) (id : Nat) (r : ReadyState)
    (h : w.readyStateOf id = some r) : id < w.sockets.length := by
  unfold Runtime.readyStateOf at h
  by_contra hlt
  rw [List.getElem?_eq_none (by omega)] at h
  simp at h

/-- What `send` does on an open socket. -/
theorem send_open (w : Runtime) (type : String) (data : JsObject) (id : Nat)
    (hws : w.client.ws = some id) (hr : w.readyStateOf id = some ReadyState.OPEN) :
    send w type data =
      (.ok (),
        { w with
          sockets := w.sockets.modify
            (fun s => { s with sent := s.sent ++ [JsObject.withType type data] }) id }) := by
  unfold send
  simp [hws, hr]

/-- What `send` does without an open socket. -/
theorem send_not_open (w : Runtime) (type : String) (data : JsObject)
    (h : w.wsIsOpen = false) : send w type data = (.error "WebSocket not connected", w) := by
  unfold send
  cases hws : w.client.ws with
  | none => rfl
  | some id =>
    have : ¬ w.readyStateOf id = some ReadyState.OPEN := by
      intro hr
      have := (wsIsOpen_iff w).2 ⟨id, hws, hr⟩
      simp [h] at this
    simp [this]

/-- C5. `send(type, data)` throws, with the message 'WebSocket not connected',
exactly when the client has no socket or its socket is not OPEN; in that case
the state is left as it was (no frame written, no field changed). Otherwise it
completes normally, the fields of the client and the timers are unchanged, and
exactly one frame is written: the total number of frames grows by one, the
frame `{ type, ...data }` is appended to those of the client's socket, and no
other socket and no `readyState` is touched. -/
theorem C5_send_fails_iff_not_open (w : Runtime) (type : String) (data : JsObject) :
    ((WebSocketClient.send w type data).1 = Except.error "WebSocket not connected" ↔
      (w.client.ws = none ∨
        ∃ id, w.client.ws = some id ∧ w.readyStateOf id ≠ some ReadyState.OPEN)) ∧
    ((WebSocketClient.send w type data).1 = Except.ok () ∨
      (WebSocketClient.send w type data).1 = Except.error "WebSocket not connected") ∧
    ((WebSocketClient.send w type data).1 = Except.error "WebSocket not connected" →
      (WebSocketClient.send w type data).2 = w) ∧
    ((WebSocketClient.send w type data).1 = Except.ok () →
      (WebSocketClient.send w type data).2.client = w.client ∧
      (WebSocketClient.send w type data).2.timers = w.timers ∧
      (WebSocketClient.send w type data).2.framesWritten = w.framesWritten + 1 ∧
      (∀ j, (WebSocketClient.send w type data).2.readyStateOf j = w.readyStateOf j) ∧
      ∃ id, w.client.ws = some id ∧
        (WebSocketClient.send w type data).2.sentOn id =
          w.sentOn id ++ [JsObject.withType type data] ∧
        ∀ j, j ≠ id → (WebSocketClient.send w type data).2.sentOn j = w.sentOn j) := by
  cases hopen : w.wsIsOpen with
  | false =>
    have hs := send_not_open w type data hopen
    have hno : w.client.ws = none ∨
        ∃ id, w.client.ws = some id ∧ w.readyStateOf id ≠ some ReadyState.OPEN := by
      cases hws : w.client.ws with
      | none => exact Or.inl rfl
      | some id =>
        refine Or.inr ⟨id, rfl, fun hr => ?_⟩
        have := (wsIsOpen_iff w).2 ⟨id, hws, hr⟩
        simp [hopen] at this
    rw [hs]
    refine ⟨⟨fun _ => hno, fun _ => rfl⟩, Or.inr rfl, fun _ => rfl, fun h => ?_⟩
    cases h
  | true =>
    obtain ⟨id, hws, hr⟩ := (wsIsOpen_iff w).1 hopen
    have hs := send_open w type data id hws hr
    have hlt := readyStateOf_lt w id _ hr
    rw [hs]
    refine ⟨⟨fun h => ?_, fun h => ?_⟩, Or.inl rfl, fun h => ?_, fun _ => ?_⟩
    · cases h
    · rcases h with h | ⟨id', h1, h2⟩
      · rw [h] at hws
        cases hws
      · rw [hws] at h1
        cases h1
        exact absurd hr h2
    · cases h
    · refine ⟨rfl, rfl, ?_, ?_, id, hws, ?_, ?_⟩
      · exact sum_map_modify (fun s : Socket => s.sent.length) _ (by simp) _ _ hlt
      · intro j
        simp only [Runtime.readyStateOf, List.getElem?_modify]
        cases w.sockets[j]? with
        | none => rfl
        | some s => by_cases hj : id = j <;> simp [hj]
      · simp only [Runtime.sentOn, List.getElem?_modify_eq]
        have : ∃ s, w.sockets[id]? = some s := by
          rw [List.getElem?_eq_getElem hlt]
          exact ⟨_, rfl⟩
        obtain ⟨s, hsock⟩ := this
        simp [hsock]
      · intro j hj
        simp only [Runtime.sentOn]
        rw [List.getElem?_modify_ne _ _ (Ne.symm hj)]

/-- C5 on the connected client (one frame written) and on the freshly
constructed one (the error, nothing written). -/
theorem C5_send_fails_iff_not_open_witness :
    (WebSocketClient.send connected "stop_agent" []).2.framesWritten =
        connected.framesWritten + 1 ∧
      (WebSocketClient.send WebSocketClient.constructor "stop_agent" []).2 =
        WebSocketClient.constructor :=
  ⟨((C5_send_fails_iff_not_open connected "stop_agent" []).2.2.2 rfl).2.2.1,
   (C5_send_fails_iff_not_open WebSocketClient.constructor "stop_agent" []).2.2.1 rfl⟩

end Transport

/-! ## Conversation log -/

section Conversation

open WebSocketClient

theorem send_client (w : Runtime) (type : String) (data : JsObject) :
    (send w type data).2.client = w.client := by
  unfold send
  split
  · split <;> rfl
  · rfl

theorem send_readyStateOf (w : Runtime) (type : String) (data : JsObject) (j : Nat) :
    (send w type data).2.readyStateOf j = w.readyStateOf j := by
  unfold send
  split
  · split
    · simp only [Runtime.readyStateOf, List.getElem?_modify]
      cases w.sockets[j]? with
      | none => rfl
      | some s =>
        rename_i id _ _
        by_cases hj : id = j <;> simp [hj]
    · rfl
  · rfl

theorem send_wsIsOpen (w : Runtime) (type : String) (data : JsObject) :
    (send w type data).2.wsIsOpen = w.wsIsOpen := by
  unfold Runtime.wsIsOpen
  rw [send_client]
  cases w.client.ws with
  | none => rfl
  | some id => simp only [send_readyStateOf]

theorem send_fst_of_open (w : Runtime) (type : String) (data : JsObject)
    (h : w.wsIsOpen = true) : (send w type data).1 = .ok () := by
  obtain ⟨id, hws, hr⟩ := (wsIsOpen_iff w).1 h
  rw [send_open w type data id hws hr]

theorem handleWebSocketMessage_wsClient (s : App) (m : Message) :
    (handleWebSocketMessage s m).wsClient = s.wsClient := by
  unfold handleWebSocketMessage
  repeat' split
  all_goals rfl

theorem handleWebSocketMessage_messages (s : App) (m : Message) :
    (handleWebSocketMessage s m).messages =
      s.messages ++ (expectedEntry (.frame m)).toList := by
  unfold handleWebSocketMessage expectedEntry
  by_cases h1 : m.type = "agent_message"
  · simp [h1]
  · by_cases h2 : m.type = "tool_result"
    · simp [h1, h2]
    · by_cases h3 : m.type = "status"
      · have h4 : m.type ≠ "error" := by rw [h3]; decide
        simp only [h1, h2, h3, if_false, if_true]
        repeat' split
        all_goals simp_all
      · by_cases h4 : m.type = "error"
        · simp [h1, h2, h3, h4]
        · simp [h1, h2, h3, h4]

/-- How `handleSendMessage` ends when the frame can be sent. -/
theorem handleSendMessage_open (s : App) (content now later : String)
    (h : s.wsClient.wsIsOpen = true) :
    (handleSendMessage s content now later).messages =
        s.messages ++ [{ content := some content, sender := some "user", timestamp := some now }] ∧
      (handleSendMessage s content now later).agentStatus = s.agentStatus ∧
      (handleSendMessage s content now later).wsClient =
        (sendMessage s.wsClient content).2 := by
  have hfst := send_fst_of_open s.wsClient "user_message" [("content", content)] h
  unfold handleSendMessage
  simp only [sendMessage] at *
  generalize send s.wsClient "user_message" [("content", content)] = r at *
  obtain ⟨r1, r2⟩ := r
  simp only at hfst
  subst hfst
  exact ⟨rfl, rfl, rfl⟩

/-- How `handleSendMessage` ends when the frame cannot be sent. -/
theorem handleSendMessage_not_open (s : App) (content now later : String)
    (h : s.wsClient.wsIsOpen = false) :
    handleSendMessage s content now later =
      { s with messages := s.messages ++
          [{ content := some content, sender := some "user", timestamp := some now },
           { content := some "Failed to send message. Please check connection."
             sender := some "system"
             timestamp := some later }] } := by
  unfold handleSendMessage
  simp only [sendMessage, send_not_open _ _ _ h, List.append_assoc, List.singleton_append]

theorem handleStopAgent_open (s : App) (h : s.wsClient.wsIsOpen = true) :
    handleStopAgent s =
      { s with wsClient := (stopAgent s.wsClient).2, agentStatus := AgentStatus.idle } := by
  have hfst := send_fst_of_open s.wsClient "stop_agent" [] h
  unfold handleStopAgent
  simp only [stopAgent] at *
  generalize send s.wsClient "stop_agent" [] = r at *
  obtain ⟨r1, r2⟩ := r
  simp only at hfst
  subst hfst
  rfl

theorem handleStopAgent_not_open (s : App) (h : s.wsClient.wsIsOpen = false) :
    handleStopAgent s = s := by
  unfold handleStopAgent
  simp only [stopAgent, send_not_open _ _ _ h]

theorem handleClearHistory_open (s : App) (h : s.wsClient.wsIsOpen = true) :
    handleClearHistory s = { s with wsClient := (clearHistory s.wsClient).2, messages := [] } := by
  have hfst := send_fst_of_open s.wsClient "clear_history" [] h
  unfold handleClearHistory
  simp only [clearHistory] at *
  generalize send s.wsClient "clear_history" [] = r at *
  obtain ⟨r1, r2⟩ := r
  simp only at hfst
  subst hfst
  rfl

theorem handleClearHistory_not_open (s : App) (h : s.wsClient.wsIsOpen = false) :
    handleClearHistory s = s := by
  unfold handleClearHistory
  simp only [clearHistory, send_not_open _ _ _ h]

/-- The connection state of the client is the same after any reaction. -/
theorem react_wsIsOpen (s : App) (e : AppEvent) :
    (s.react e).wsClient.wsIsOpen = s.wsClient.wsIsOpen := by
  cases hopen : s.wsClient.wsIsOpen with
  | false =>
    cases e with
    | frame m => simp [App.react, handleWebSocketMessage_wsClient, hopen]
    | submit c n l => simp [App.react, handleSendMessage_not_open _ _ _ _ hopen, hopen]
    | clear => simp [App.react, handleClearHistory_not_open _ hopen, hopen]
    | stop => simp [App.react, handleStopAgent_not_open _ hopen, hopen]
  | true =>
    cases e with
    | frame m => simp [App.react, handleWebSocketMessage_wsClient, hopen]
    | submit c n l =>
      simp [App.react, (handleSendMessage_open s c n l hopen).2.2, sendMessage, send_wsIsOpen,
        hopen]
    | clear =>
      simp [App.react, handleClearHistory_open _ hopen, clearHistory, send_wsIsOpen, hopen]
    | stop =>
      simp [App.react, handleStopAgent_open _ hopen, stopAgent, send_wsIsOpen, hopen]

theorem react_messages (s : App) (e : AppEvent) (h : s.wsClient.wsIsOpen = true)
    (hc : e ≠ AppEvent.clear) :
    (s.react e).messages = s.messages ++ (expectedEntry e).toList := by
  cases e with
  | frame m => exact handleWebSocketMessage_messages s m
  | submit c n l => simp [App.react, (handleSendMessage_open s c n l h).1, expectedEntry]
  | clear => exact absurd rfl hc
  | stop => simp [App.react, handleStopAgent_open _ h, expectedEntry]

theorem reactAll_messages (events : List AppEvent) (s : App)
    (h : s.wsClient.wsIsOpen = true) (hc : ∀ e ∈ events, e ≠ AppEvent.clear) :
    (s.reactAll events).messages = s.messages ++ events.filterMap expectedEntry := by
  induction events generalizing s with
  | nil => simp [App.reactAll]
  | cons e es ih =>
    have hstep := react_messages s e h (hc e (List.mem_cons_self _ _))
    have hopen : (s.react e).wsClient.wsIsOpen = true := by rw [react_wsIsOpen, h]
    have := ih (s.react e) hopen (fun e' he' => hc e' (List.mem_cons_of_mem _ he'))
    simp only [App.reactAll, List.foldl_cons] at this ⊢
    rw [this, hstep, List.filterMap_cons]
    cases expectedEntry e <;> simp

theorem expectedEntry_isSome (e : AppEvent) :
    (expectedEntry e).isSome = (e.isEntryFrame || e.isSubmit) := by
  cases e with
  | frame m =>
    simp only [expectedEntry, AppEvent.isEntryFrame, AppEvent.isSubmit, Bool.or_false]
    by_cases h1 : m.type = "agent_message"
    · simp [h1]
    · by_cases h2 : m.type = "tool_result"
      · simp [h1, h2]
      · by_cases h3 : m.type = "error" <;> simp [h1, h2, h3]
  | submit c n l => rfl
  | clear => rfl
  | stop => rfl

theorem length_filterMap_expectedEntry (events : List AppEvent) :
    (events.filterMap expectedEntry).length =
      events.countP AppEvent.isEntryFrame + events.countP AppEvent.isSubmit := by
  induction events with
  | nil => rfl
  | cons e es ih =>
    have h := expectedEntry_isSome e
    rw [List.filterMap_cons, List.countP_cons, List.countP_cons]
    cases he : expectedEntry e with
    | none =>
      rw [he] at h
      have h' : (e.isEntryFrame || e.isSubmit) = false := by simpa using h.symm
      rw [Bool.or_eq_false_iff] at h'
      simp only [h'.1, h'.2, ih]
      simp
    | some x =>
      rw [he] at h
      have h' : (e.isEntryFrame || e.isSubmit) = true := by simpa using h.symm
      cases e with
      | frame m =>
        have h1 : (AppEvent.frame m).isEntryFrame = true := by
          simpa [AppEvent.isSubmit] using h'
        simp only [h1, AppEvent.isSubmit, List.length_cons, ih]
        simp
        omega
      | submit c n l =>
        simp only [AppEvent.isEntryFrame, AppEvent.isSubmit, List.length_cons, ih]
        simp
        omega
      | clear => simp [AppEvent.isEntryFrame, AppEvent.isSubmit] at h'
      | stop => simp [AppEvent.isEntryFrame, AppEvent.isSubmit] at h'

/-- C6. On a connected transport and with no clear request among the events,
the log after any finite sequence of inbound frames, user submissions (and
stop requests) is the log before, followed by the entries of the
entry-producing events in arrival order: so entries already in the log keep
their content and place. From the empty log the result is exactly that list
of entries, and its length is the number of `agent_message`, `tool_result` and
`error` frames plus the number of user submissions. -/
theorem C6_log_is_arrival_ordered_entries (events : List AppEvent) (s : App)
    (hopen : s.wsClient.wsIsOpen = true) (hclear : ∀ e ∈ events, e ≠ AppEvent.clear) :
    (s.reactAll events).messages = s.messages ++ events.filterMap expectedEntry ∧
    ((App.initial s.wsClient).reactAll events).messages = events.filterMap expectedEntry ∧
    ((App.initial s.wsClient).reactAll events).messages.length =
      events.countP AppEvent.isEntryFrame + events.countP AppEvent.isSubmit := by
  have h0 := reactAll_messages events (App.initial s.wsClient) hopen hclear
  simp only [App.initial, List.nil_append] at h0
  refine ⟨reactAll_messages events s hopen hclear, ?_, ?_⟩
  · exact h0
  · simp only [App.initial]
    rw [h0, length_filterMap_expectedEntry]

/-- C6 on a session of six events: a submission, a status frame, an agent
message, a tool result that names another sender, an error and a frame of an
unknown type. -/
theorem C6_log_is_arrival_ordered_entries_witness :
    ((App.initial connected).reactAll sampleSession).messages =
        sampleSession.filterMap expectedEntry ∧
      ((App.initial connected).reactAll sampleSession).messages.length = 3 + 1 :=
  ⟨(C6_log_is_arrival_ordered_entries sampleSession (App.initial connected) (by decide)
      (by decide)).2.1,
   (C6_log_is_arrival_ordered_entries sampleSession (App.initial connected) (by decide)
      (by decide)).2.2⟩

/-! ## Agent activity -/

theorem handleWebSocketMessage_agentStatus (s : App) (m : Message) :
    (handleWebSocketMessage s m).agentStatus =
      (activityEffect s.wsClient.wsIsOpen (.frame m)).getD s.agentStatus := by
  unfold handleWebSocketMessage activityEffect
  by_cases h1 : m.type = "agent_message"
  · have h3 : m.type ≠ "status" := by rw [h1]; decide
    have h4 : m.type ≠ "error" := by rw [h1]; decide
    simp [h1, h3, h4]
  · by_cases h2 : m.type = "tool_result"
    · have h3 : m.type ≠ "status" := by rw [h2]; decide
      have h4 : m.type ≠ "error" := by rw [h2]; decide
      simp [h1, h2, h3, h4]
    · by_cases h3 : m.type = "status"
      · simp only [h1, h2, h3, if_false, if_true]
        by_cases h5 : m.data.status = some "processing"
        · simp [h5]
        · by_cases h6 : m.data.status = some "stopped" <;> simp [h5, h6]
      · by_cases h4 : m.type = "error" <;> simp [h1, h2, h3, h4]

theorem react_agentStatus (s : App) (e : AppEvent) :
    (s.react e).agentStatus = (activityEffect s.wsClient.wsIsOpen e).getD s.agentStatus := by
  cases e with
  | frame m => exact handleWebSocketMessage_agentStatus s m
  | submit c n l =>
    cases hopen : s.wsClient.wsIsOpen with
    | false => simp [App.react, handleSendMessage_not_open _ _ _ _ hopen, activityEffect]
    | true => simp [App.react, (handleSendMessage_open s c n l hopen).2.1, activityEffect]
  | clear =>
    cases hopen : s.wsClient.wsIsOpen with
    | false => simp [App.react, handleClearHistory_not_open _ hopen, activityEffect]
    | true => simp [App.react, handleClearHistory_open _ hopen, activityEffect]
  | stop =>
    cases hopen : s.wsClient.wsIsOpen with
    | false => simp [App.react, handleStopAgent_not_open _ hopen, activityEffect]
    | true => simp [App.react, handleStopAgent_open _ hopen, activityEffect]

theorem reactAll_agentStatus (events : List AppEvent) (s : App) :
    (s.reactAll events).agentStatus = (s.lastEffect events).getD s.agentStatus := by
  induction events generalizing s with
  | nil => rfl
  | cons e es ih =>
    have h := ih (s.react e)
    simp only [App.reactAll, List.foldl_cons] at h ⊢
    rw [h, App.lastEffect]
    cases hl : (s.react e).lastEffect es with
    | some a => rfl
    | none => simpa using react_agentStatus s e

/-- C7 as stated fails for stop requests. With the activity `running` and no
open socket, `handleStopAgent` leaves the activity `running`; with the
activity `error` and an open socket it sets the activity to `idle`. -/
theorem C7_stop_request_counterexample :
    (handleStopAgent
      { messages := [], agentStatus := AgentStatus.running,
        wsClient := WebSocketClient.constructor }).agentStatus = AgentStatus.running ∧
    (handleStopAgent
      { messages := [], agentStatus := AgentStatus.error,
        wsClient := connected }).agentStatus = AgentStatus.idle := by
  decide

/-- C7, amended. For every state and every event the new activity is the one
the event sets (`running` for status `processing`; `idle` for status `stopped`
and for a stop request on an open transport, whatever the activity; `error`
for an error frame) and is unchanged when the event sets none (a stop request
without an open transport, any other status value, any other frame type, a
submission, a clear request). After any sequence of events the activity is the
one set by the most recent activity-affecting event, or the activity at the
start when there was none. -/
theorem C7_activity_follows_last_effect (s : App) (e : AppEvent) (events : List AppEvent) :
    (s.react e).agentStatus = (activityEffect s.wsClient.wsIsOpen e).getD s.agentStatus ∧
    (s.reactAll events).agentStatus = (s.lastEffect events).getD s.agentStatus ∧
    (∀ a, (s.reactAll events).agentStatus = a ↔
      (s.lastEffect events = some a ∨ (s.lastEffect events = none ∧ s.agentStatus = a))) := by
  refine ⟨react_agentStatus s e, reactAll_agentStatus events s, fun a => ?_⟩
  rw [reactAll_agentStatus]
  cases s.lastEffect events <;> simp

/-! ## Clearing the log -/

/-- C8 as stated fails without an open socket: `clearHistory()` throws, the
`catch` block only logs, and the log keeps its entry. -/
theorem C8_clear_not_connected_counterexample :
    (handleClearHistory
      { messages := [{ content := some "hi", sender := some "user", timestamp := some "t0" }]
        agentStatus := AgentStatus.idle
        wsClient := WebSocketClient.constructor }).messages =
      [{ content := some "hi", sender := some "user", timestamp := some "t0" }] := by
  decide

/-- C8, amended. A clear-history request made while the socket is open
empties the log and leaves the activity unchanged; made without an open socket
it leaves the whole state unchanged; and in every state a second request in a
row gives the same log and activity as the first. -/
theorem C8_clear_history (s : App) :
    (s.wsClient.wsIsOpen = true →
      (handleClearHistory s).messages = [] ∧
      (handleClearHistory s).agentStatus = s.agentStatus) ∧
    (s.wsClient.wsIsOpen = false → handleClearHistory s = s) ∧
    (handleClearHistory (handleClearHistory s)).messages = (handleClearHistory s).messages ∧
    (handleClearHistory (handleClearHistory s)).agentStatus =
      (handleClearHistory s).agentStatus := by
  refine ⟨fun h => ?_, fun h => handleClearHistory_not_open s h, ?_⟩
  · rw [handleClearHistory_open s h]
    exact ⟨rfl, rfl⟩
  · cases hopen : s.wsClient.wsIsOpen with
    | false => simp [handleClearHistory_not_open s hopen]
    | true =>
      have h2 : (handleClearHistory s).wsClient.wsIsOpen = true := by
        rw [handleClearHistory_open s hopen]
        simp [clearHistory, send_wsIsOpen, hopen]
      rw [handleClearHistory_open (handleClearHistory s) h2, handleClearHistory_open s hopen]
      exact ⟨rfl, rfl⟩

/-- C8, amended, on a connected `App` that is running with one entry in its
log. -/
theorem C8_clear_history_witness :
    (handleClearHistory
      { messages := [{ content := some "hi", sender := some "user", timestamp := some "t0" }]
        agentStatus := AgentStatus.running
        wsClient := connected }).messages = [] ∧
    (handleClearHistory
      { messages := [{ content := some "hi", sender := some "user", timestamp := some "t0" }]
        agentStatus := AgentStatus.running
        wsClient := connected }).agentStatus = AgentStatus.running :=
  (C8_clear_history
    { messages := [{ content := some "hi", sender := some "user", timestamp := some "t0" }]
      agentStatus := AgentStatus.running
      wsClient := connected }).1 (by decide)

/-! ## Failed submissions -/

/-- C10. When the client has no open socket, `handleSendMessage(content)`
ends normally with the previous log followed by exactly two entries, the user
entry and then the system entry that reports the failure; the activity and the
client are unchanged. -/
theorem C10_failed_send_is_reported (s : App) (content now later : String)
    (h : s.wsClient.wsIsOpen = false) :
    (handleSendMessage s content now later).messages =
      s.messages ++
        [{ content := some content, sender := some "user", timestamp := some now },
         { content := some "Failed to send message. Please check connection."
           sender := some "system"
           timestamp := some later }] ∧
    (handleSendMessage s content now later).agentStatus = s.agentStatus ∧
    (handleSendMessage s content now later).wsClient = s.wsClient := by
  rw [handleSendMessage_not_open s content now later h]
  exact ⟨rfl, rfl, rfl⟩

/-- C10 on an `App` around the freshly constructed client. -/
theorem C10_failed_send_is_reported_witness :
    (handleSendMessage (App.initial WebSocketClient.constructor) "hello" "t0" "t1").messages =
      [{ content := some "hello", sender := some "user", timestamp := some "t0" },
       { content := some "Failed to send message. Please check connection."
         sender := some "system"
         timestamp := some "t1" }] :=
  (C10_failed_send_is_reported (App.initial WebSocketClient.constructor) "hello" "t0" "t1"
    (by decide)).1

end Conversation

/-! ## Message fan-out -/

section FanOutProofs

variable {μ σ : Type}

theorem tryHandler_eq (closures : Nat → Handler μ σ) (h : Nat) (message : μ)
    (st : FanOut μ σ) :
    tryHandler closures h message st =
      (.ok (),
        { runtime := st.runtime
          observers := (closures h message st.observers).1
          calls := st.calls ++ [(h, message)]
          logged := st.logged ++ (closures h message st.observers).2.toList }) := by
  unfold tryHandler callHandler
  cases hr : (closures h message st.observers).2 with
  | none => simp [hr]
  | some err => simp [hr]

theorem forEach_tryHandler (closures : Nat → Handler μ σ) (message : μ) :
    ∀ (hs : List Nat) (st : FanOut μ σ),
      forEach (fun h => tryHandler closures h message) hs st =
        (.ok (),
          { runtime := st.runtime
            observers := hs.foldl (fun o h => (closures h message o).1) st.observers
            calls := st.calls ++ hs.map (fun h => (h, message))
            logged := st.logged ++ thrownErrors closures message hs st.observers })
  | [], st => by simp [forEach, thrownErrors]
  | h :: hs, st => by
    simp only [forEach, tryHandler_eq]
    rw [forEach_tryHandler closures message hs]
    simp [thrownErrors, List.append_assoc]

theorem foldl_onMessage (hs : List Nat) (w : Runtime) :
    (hs.foldl WebSocketClient.onMessage w).client.messageHandlers =
      w.client.messageHandlers ++ hs := by
  induction hs generalizing w with
  | nil => simp
  | cons h hs ih =>
    rw [List.foldl_cons, ih]
    simp [WebSocketClient.onMessage]

/-- C9. `handleMessage(message)` calls every handler in `messageHandlers`
once, with that message, in list order, which is the order of registration by
`onMessage`; this holds whatever the handlers do, so a handler that throws
does not keep the later ones from being called. No error escapes
`handleMessage`: each error thrown is caught and logged. The client (socket,
`reconnectAttempts`, handler list and all) is left as it was, and the
observers end in the state the handlers leave one after the other. -/
theorem C9_fan_out_reaches_every_handler (closures : Nat → Handler μ σ) (message : μ)
    (st : FanOut μ σ) (hs : List Nat) (w : Runtime) :
    (WebSocketClient.handleMessage closures message st).1 = Except.ok () ∧
    (WebSocketClient.handleMessage closures message st).2.calls =
      st.calls ++ st.runtime.client.messageHandlers.map (fun h => (h, message)) ∧
    (WebSocketClient.handleMessage closures message st).2.observers =
      st.runtime.client.messageHandlers.foldl (fun o h => (closures h message o).1)
        st.observers ∧
    (WebSocketClient.handleMessage closures message st).2.logged =
      st.logged ++
        thrownErrors closures message st.runtime.client.messageHandlers st.observers ∧
    (WebSocketClient.handleMessage closures message st).2.runtime = st.runtime ∧
    (hs.foldl WebSocketClient.onMessage w).client.messageHandlers =
      w.client.messageHandlers ++ hs := by
  unfold WebSocketClient.handleMessage
  rw [forEach_tryHandler]
  exact ⟨rfl, rfl, rfl, rfl, rfl, foldl_onMessage hs w⟩

/-- C9 on three handlers of which the second throws: all three are called in
order, the third one too, and the error is logged, not passed on. -/
theorem C9_fan_out_reaches_every_handler_witness :
    (WebSocketClient.handleMessage sampleClosures "m" sampleFanOut).1 = Except.ok () ∧
    (WebSocketClient.handleMessage sampleClosures "m" sampleFanOut).2.calls =
      [(1, "m"), (2, "m"), (3, "m")] ∧
    (WebSocketClient.handleMessage sampleClosures "m" sampleFanOut).2.observers = 111 ∧
    (WebSocketClient.handleMessage sampleClosures "m" sampleFanOut).2.logged = ["boom"] :=
  ⟨(C9_fan_out_reaches_every_handler sampleClosures "m" sampleFanOut [] connected).1,
   (C9_fan_out_reaches_every_handler sampleClosures "m" sampleFanOut [] connected).2.1,
   (C9_fan_out_reaches_every_handler sampleClosures "m" sampleFanOut [] connected).2.2.1,
   (C9_fan_out_reaches_every_handler sampleClosures "m" sampleFanOut [] connected).2.2.2.1⟩

end FanOutProofs

/-! ## Outbound frames -/

section Frames

open WebSocketClient

theorem send_sentOn (w : Runtime) (type : String) (data : JsObject) (id : Nat)
    (hws : w.client.ws = some id) (hr : w.readyStateOf id = some ReadyState.OPEN) :
    (send w type data).2.sentOn id = w.sentOn id ++ [JsObject.withType type data] := by
  have hlt := readyStateOf_lt w id _ hr
  rw [send_open w type data id hws hr]
  simp only [Runtime.sentOn, List.getElem?_modify_eq]
  rw [List.getElem?_eq_getElem hlt]
  simp

theorem send_framesWritten (w : Runtime) (type : String) (data : JsObject) (id : Nat)
    (hws : w.client.ws = some id) (hr : w.readyStateOf id = some ReadyState.OPEN) :
    (send w type data).2.framesWritten = w.framesWritten + 1 := by
  have hlt := readyStateOf_lt w id _ hr
  rw [send_open w type data id hws hr]
  exact sum_map_modify (fun s : Socket => s.sent.length) _ (by simp) _ _ hlt

theorem send_textOn (w : Runtime) (type : String) (data : JsObject) (id : Nat)
    (hws : w.client.ws = some id) (hr : w.readyStateOf id = some ReadyState.OPEN) :
    (send w type data).2.textOn id =
      w.textOn id ++ [JSON_stringify (JsObject.withType type data)] := by
  simp only [Runtime.textOn, send_sentOn w type data id hws hr, List.map_append, List.map_cons,
    List.map_nil]

theorem withType_content (content : String) :
    JsObject.withType "user_message" [("content", content)] =
      [("type", "user_message"), ("content", content)] := by
  simp [JsObject.withType, JsObject.set]

theorem stringify_user_message (content : String) :
    JSON_stringify [("type", "user_message"), ("content", content)] =
      "\x7b\"type\":\"user_message\",\"content\":" ++ JSON_quote content ++ "\x7d" := by
  have h1 : arrayIndex? "type" = none := by decide
  have h2 : arrayIndex? "content" = none := by decide
  simp only [JSON_stringify, JsObject.enumerate, List.filterMap_cons, List.filterMap_nil, h1, h2,
    Option.map_none', List.foldr_nil, List.map_nil, List.nil_append, List.filter_cons,
    List.filter_nil, Option.isNone_none, if_true, List.map_cons, String.intercalate]
  have q1 : JSON_quote "type" = "\"type\"" := by decide
  have q2 : JSON_quote "user_message" = "\"user_message\"" := by decide
  have q3 : JSON_quote "content" = "\"content\"" := by decide
  simp only [String.intercalate.go, q1, q2, q3]
  apply String.ext
  simp only [String.data_append, List.append_assoc]
  rfl

theorem user_message_text_ne (content : String) (t : String)
    (ht : t.data[9]? ≠ some 'u') :
    "\x7b\"type\":\"user_message\",\"content\":" ++ JSON_quote content ++ "\x7d" ≠ t := by
  intro h
  apply ht
  rw [← h]
  simp only [String.data_append, List.append_assoc]
  rfl

/-- C11. On a client whose socket is open, `sendMessage(content)`,
`stopAgent()` and `clearHistory()` each complete normally and write exactly
one frame on that socket: the `JSON.stringify` text of the object made of
`type` and `content`, of `type` alone, and of `type` alone, with the type
values `user_message`, `stop_agent` and `clear_history`. The objects have no
other property, and the three frames differ from each other whatever the
content is. -/
theorem C11_intents_write_their_frames (w : Runtime) (id : Nat) (content : String)
    (hws : w.client.ws = some id) (hr : w.readyStateOf id = some ReadyState.OPEN) :
    ((WebSocketClient.sendMessage w content).1 = Except.ok () ∧
      (WebSocketClient.sendMessage w content).2.framesWritten = w.framesWritten + 1 ∧
      (WebSocketClient.sendMessage w content).2.sentOn id =
        w.sentOn id ++ [[("type", "user_message"), ("content", content)]] ∧
      (WebSocketClient.sendMessage w content).2.textOn id =
        w.textOn id ++
          ["\x7b\"type\":\"user_message\",\"content\":" ++ JSON_quote content ++ "\x7d"]) ∧
    ((WebSocketClient.stopAgent w).1 = Except.ok () ∧
      (WebSocketClient.stopAgent w).2.framesWritten = w.framesWritten + 1 ∧
      (WebSocketClient.stopAgent w).2.sentOn id = w.sentOn id ++ [[("type", "stop_agent")]] ∧
      (WebSocketClient.stopAgent w).2.textOn id =
        w.textOn id ++ ["\x7b\"type\":\"stop_agent\"\x7d"]) ∧
    ((WebSocketClient.clearHistory w).1 = Except.ok () ∧
      (WebSocketClient.clearHistory w).2.framesWritten = w.framesWritten + 1 ∧
      (WebSocketClient.clearHistory w).2.sentOn id =
        w.sentOn id ++ [[("type", "clear_history")]] ∧
      (WebSocketClient.clearHistory w).2.textOn id =
        w.textOn id ++ ["\x7b\"type\":\"clear_history\"\x7d"]) ∧
    ("\x7b\"type\":\"user_message\",\"content\":" ++ JSON_quote content ++ "\x7d" ≠
        "\x7b\"type\":\"stop_agent\"\x7d" ∧
      "\x7b\"type\":\"user_message\",\"content\":" ++ JSON_quote content ++ "\x7d" ≠
        "\x7b\"type\":\"clear_history\"\x7d" ∧
      "\x7b\"type\":\"stop_agent\"\x7d" ≠ "\x7b\"type\":\"clear_history\"\x7d") := by
  have hopen : w.wsIsOpen = true := (wsIsOpen_iff w).2 ⟨id, hws, hr⟩
  have hstop : JSON_stringify (JsObject.withType "stop_agent" []) =
      "\x7b\"type\":\"stop_agent\"\x7d" := by decide
  have hclear : JSON_stringify (JsObject.withType "clear_history" []) =
      "\x7b\"type\":\"clear_history\"\x7d" := by decide
  refine ⟨⟨?_, ?_, ?_, ?_⟩, ⟨?_, ?_, ?_, ?_⟩, ⟨?_, ?_, ?_, ?_⟩, ?_, ?_, ?_⟩
  · exact send_fst_of_open w _ _ hopen
  · exact send_framesWritten w _ _ id hws hr
  · rw [sendMessage, send_sentOn w _ _ id hws hr, withType_content]
  · rw [sendMessage, send_textOn w _ _ id hws hr, withType_content, stringify_user_message]
  · exact send_fst_of_open w _ _ hopen
  · exact send_framesWritten w _ _ id hws hr
  · rw [stopAgent, send_sentOn w _ _ id hws hr]
    rfl
  · rw [stopAgent, send_textOn w _ _ id hws hr, hstop]
  · exact send_fst_of_open w _ _ hopen
  · exact send_framesWritten w _ _ id hws hr
  · rw [clearHistory, send_sentOn w _ _ id hws hr]
    rfl
  · rw [clearHistory, send_textOn w _ _ id hws hr, hclear]
  · exact user_message_text_ne content _ (by decide)
  · exact user_message_text_ne content _ (by decide)
  · decide

/-- C11 on the connected client, with a content that holds a double quote:
the three frames as they go on the wire. -/
theorem C11_intents_write_their_frames_witness :
    (WebSocketClient.sendMessage connected "say \"hi\"").2.textOn 0 =
        ["\x7b\"type\":\"user_message\",\"content\":" ++ JSON_quote "say \"hi\"" ++ "\x7d"] ∧
      (WebSocketClient.stopAgent connected).2.textOn 0 = ["\x7b\"type\":\"stop_agent\"\x7d"] ∧
      (WebSocketClient.clearHistory connected).2.textOn 0 =
        ["\x7b\"type\":\"clear_history\"\x7d"] ∧
      JSON_quote "say \"hi\"" = "\"say \\\"hi\\\"\"" :=
  ⟨(C11_intents_write_their_frames connected 0 "say \"hi\"" (by decide) (by decide)).1.2.2.2,
   (C11_intents_write_their_frames connected 0 "say \"hi\"" (by decide) (by decide)).2.1.2.2.2,
   (C11_intents_write_their_frames connected 0 "say \"hi\"" (by decide)
      (by decide)).2.2.1.2.2.2,
   by decide⟩

end Frames

end OmniParser
